import Mathlib

/-!
# Verification of the workflow-builder backend engine

This file gives a shallow embedding, in Lean 4, of the core of the
workflow execution engine (scheduler, dedup store, job queue, executor,
step interpreter, action execution) of the `flow--workflow-builder-backend`
repository, and proves or refutes the frozen claims about it.

The embedding follows the TypeScript source:
* `WorkflowsService` (workflow service file): `executeWorkflowSteps`,
  `evaluateCondition`, `evaluateConditionString`, `getNestedValue`,
  `executeAction`, `deactivateWorkflow`, `getPollingInterval`.
* `SchedulerService` (`src/queue/workflow.processor.ts`, second class):
  `checkAndTriggerWorkflow`, `calculateNextRunAt`, `checkTrigger`,
  `filterUnprocessed`, `fetchNewEmails`.
* `WorkflowProcessor.processWorkflow` (same file, first class).
* `QueueService.removeWorkflowJobs` (`src/queue/queue.service.ts`).
* `ProcessedTrigger` entity (unique index on workflow/triggerType/externalId).

JavaScript dynamic values are modelled by the `JVal` type below; JS
truthiness, `toString` coercion, `||` defaulting and optional chaining are
modelled explicitly so the embedded functions mirror the source line by line.
Asynchronous third-party calls are modelled by environment records of
functions returning `Except String` (an exception models a JS `throw`).
-/

/-- A JavaScript/JSON dynamic value, as stored in `steps`, `config`,
`trigger_data` and action results. Numbers are modelled as integers
(every number the engine manipulates — ids, epoch timestamps, counts —
is integral). -/
inductive JVal where
  | str (s : String)
  | num (n : Int)
  | bool (b : Bool)
  | null
  | arr (elems : List JVal)
  | obj (fields : List (String × JVal))
deriving Repr

/-- JS truthiness of a value (`if (v)`): empty string, zero, `false` and
`null` are falsy; every other value (any object or array) is truthy. -/
def jsTruthy : JVal → Bool
  | .str s => !s.isEmpty
  | .num n => n ≠ 0
  | .bool b => b
  | .null => false
  | .arr _ => true
  | .obj _ => true

mutual
/-- JS `String(v)` / `v.toString()` coercion: strings unchanged, numbers in
decimal, booleans as `true`/`false`, arrays joined with commas (with null
elements rendered empty), plain objects as `[object Object]`. -/
def jsToString : JVal → String
  | .str s => s
  | .num n => toString n
  | .bool b => if b then "true" else "false"
  | .null => "null"
  | .arr xs => jsToStringList xs
  | .obj _ => "[object Object]"

/-- Comma join of array elements (JS `Array.prototype.toString`); `null`
elements render as the empty string. -/
def jsToStringList : List JVal → String
  | [] => ""
  | [JVal.null] => ""
  | [v] => jsToString v
  | JVal.null :: rest => "," ++ jsToStringList rest
  | v :: rest => jsToString v ++ "," ++ jsToStringList rest
end

/-- ASCII lowercasing, modelling JS `toLowerCase()` on the engine's data
(kept as a plain character map so proofs can compute). -/
def strLower (s : String) : String := ⟨s.data.map Char.toLower⟩

/-- `needle` occurs as a contiguous sublist of the character list. -/
def containsSub (needle : List Char) : List Char → Bool
  | [] => needle.isEmpty
  | c :: rest => needle.isPrefixOf (c :: rest) || containsSub needle rest

/-- JS `hay.includes(needle)` on strings. -/
def strIncludes (hay needle : String) : Bool := containsSub needle.data hay.data

/-- JS `String.prototype.split` on a single separator character
(`"".split(c)` is `[""]`, empty segments are kept). -/
def splitOnCh (c : Char) : List Char → List (List Char)
  | [] => [[]]
  | x :: xs =>
    let r := splitOnCh c xs
    if x == c then [] :: r
    else
      match r with
      | [] => [[x]]
      | h :: t => (x :: h) :: t

/-- JS property access `v[key]`: defined only on objects (first matching
field; the engine's objects have distinct keys), `undefined` otherwise. -/
def jsGet : JVal → String → Option JVal
  | .obj fs, k => (fs.find? (fun f => f.1 == k)).map (·.2)
  | _, _ => none

/-- `getNestedValue(obj, path)` from the workflow service:
`path.split('.').reduce((current, key) => current?.[key], obj)`.
`none` models JS `undefined` (missing key or access through a
null/undefined intermediate). -/
def getNestedValue (obj : JVal) (path : String) : Option JVal :=
  ((splitOnCh '.' path.data).map fun cs => (⟨cs⟩ : String)).foldl
    (fun cur key => cur.bind fun v => jsGet v key) (some obj)

/-- One step of the template regex `\{\{([^}]+)\}\}`: after an opening
`{{`, the key is one or more non-`}` characters followed immediately by
`}}`; returns the key and the remainder. -/
def templateSpan (cs : List Char) : Option (List Char × List Char) :=
  match cs.dropWhile (fun c => c ≠ '}') with
  | '}' :: '}' :: rest =>
    if (cs.takeWhile (fun c => c ≠ '}')).isEmpty then none
    else some (cs.takeWhile (fun c => c ≠ '}'), rest)
  | _ => none

/-- Global replacement of `{{key}}` template occurrences, left to right and
non-overlapping, exactly as `s.replace(/\{\{([^}]+)\}\}/g, cb)`: where the
pattern does not match, scanning advances one character. `repl` returns
`none` when the callback keeps the matched literal. The fuel argument only
serves termination; it is never exhausted when it starts at the length of
the character list (each step consumes at least one character). -/
def substGenAux (repl : String → Option String) : Nat → List Char → List Char
  | 0, cs => cs
  | _+1, [] => []
  | fuel+1, c :: rest =>
    if c = '{' then
      match rest with
      | c2 :: rest2 =>
        if c2 = '{' then
          match templateSpan rest2 with
          | some (key, rest') =>
            (match repl ⟨key⟩ with
             | some r => r.data
             | none => '{' :: '{' :: (key ++ ['}', '}'])) ++ substGenAux repl fuel rest'
          | none => '{' :: substGenAux repl fuel rest
        else c :: substGenAux repl fuel rest
      | [] => c :: substGenAux repl fuel rest
    else c :: substGenAux repl fuel rest

/-- Run the global template replacement over a whole string. -/
def substGen (repl : String → Option String) (s : String) : String :=
  ⟨substGenAux repl s.data.length s.data⟩

/-- The action template substitution used throughout `executeAction`:
`s.replace(/\{\{([^}]+)\}\}/g, (match, key) => { const value =
this.getNestedValue(dataFromTrigger, key); return value !== undefined &&
value !== null ? value : match; })` — a missing (`undefined`) or `null`
lookup keeps the literal `{{key}}`, any other value is substituted (and
coerced to a string by `replace`). -/
def substituteTemplates (s : String) (data : JVal) : String :=
  substGen
    (fun key =>
      match getNestedValue data key with
      | none => none
      | some .null => none
      | some v => some (jsToString v)) s

/-- The four comparison operators of the condition mini-language. -/
inductive CondOp where
  | contains
  | equals
  | notContains
  | notEquals
deriving Repr, DecidableEq

/-- Operator alternation `(contains|equals|not contains|not equals)` at the
current position. -/
def matchOp (cs : List Char) : Option (CondOp × List Char) :=
  if "contains".data.isPrefixOf cs then some (.contains, cs.drop 8)
  else if "equals".data.isPrefixOf cs then some (.equals, cs.drop 6)
  else if "not contains".data.isPrefixOf cs then some (.notContains, cs.drop 12)
  else if "not equals".data.isPrefixOf cs then some (.notEquals, cs.drop 10)
  else none

/-- Attempt to match the condition regex
`\{\{([^}]+)\}\}\s+(contains|equals|not contains|not equals)\s+['"]([^'"]+)['"]`
anchored at the head of the character list; returns (path, operator,
literal). Opening and closing quote need not agree, the literal is one or
more non-quote characters. -/
def matchCondAt (cs : List Char) : Option (String × CondOp × String) :=
  match cs with
  | '{' :: '{' :: rest =>
    match templateSpan rest with
    | some (key, rest1) =>
      if (rest1.takeWhile Char.isWhitespace).isEmpty then none
      else
        match matchOp (rest1.dropWhile Char.isWhitespace) with
        | some (op, rest3) =>
          if (rest3.takeWhile Char.isWhitespace).isEmpty then none
          else
            match rest3.dropWhile Char.isWhitespace with
            | q :: rest5 =>
              if q == '\'' || q == '"' then
                let lit := rest5.takeWhile (fun c => c ≠ '\'' && c ≠ '"')
                match rest5.dropWhile (fun c => c ≠ '\'' && c ≠ '"') with
                | q2 :: _ =>
                  if lit.isEmpty then none
                  else if q2 == '\'' || q2 == '"' then some (⟨key⟩, op, ⟨lit⟩)
                  else none
                | [] => none
              else none
            | [] => none
        | none => none
    | none => none
  | _ => none

/-- Unanchored search for the condition regex: try each start position left
to right (JS `String.prototype.match` semantics for this pattern). -/
def findCondMatch : List Char → Option (String × CondOp × String)
  | [] => none
  | c :: rest =>
    match matchCondAt (c :: rest) with
    | some r => some r
    | none => findCondMatch rest

/-- `evaluateConditionString(conditionString, triggerData)` from the
workflow service: parse the condition, resolve the dotted path against the
trigger data, then compare. An unparsable condition is `false`. The
positive operators require a truthy resolved value and compare the
lowercased `toString` of the value with the lowercased literal; the `not`
variants are their JS negations (`!actualValue || !...`), so a missing or
falsy value makes them true. -/
def evaluateConditionString (conditionString : String) (triggerData : JVal) : Bool :=
  match findCondMatch conditionString.data with
  | none => false
  | some (variablePath, operator, value) =>
    let actualValue := getNestedValue triggerData variablePath
    match operator with
    | .contains =>
      match actualValue with
      | some v => jsTruthy v && strIncludes (strLower (jsToString v)) (strLower value)
      | none => false
    | .equals =>
      match actualValue with
      | some v => jsTruthy v && (strLower (jsToString v) == strLower value)
      | none => false
    | .notContains =>
      match actualValue with
      | some v => !jsTruthy v || !strIncludes (strLower (jsToString v)) (strLower value)
      | none => true
    | .notEquals =>
      match actualValue with
      | some v => !jsTruthy v || (strLower (jsToString v) != strLower value)
      | none => true

/-- One clause of a condition step: a JS object that may carry `if`
(condition string), `then` (target step id) and `else` (target step id)
fields; `none` models an absent field. -/
structure CondClause where
  ifCond : Option String := none
  thenId : Option String := none
  elseId : Option String := none
deriving Repr, DecidableEq

/-- JS truthiness of an optional string field. -/
def strTruthyOpt : Option String → Bool
  | some s => !s.isEmpty
  | none => false

/-- `evaluateCondition(conditionStep, triggerData)` from the workflow
service, on the step's `conditions` list: scan clauses in order; a clause
with a truthy `if` is evaluated and, when it holds, its `then` is returned;
otherwise a clause with a truthy `else` returns its target as soon as it is
encountered; if the scan is exhausted the result is `null` (`none`). -/
def evaluateCondition : List CondClause → JVal → Option String
  | [], _ => none
  | c :: rest, td =>
    if strTruthyOpt c.ifCond then
      if evaluateConditionString (c.ifCond.getD "") td then c.thenId
      else evaluateCondition rest td
    else if strTruthyOpt c.elseId then c.elseId
    else evaluateCondition rest td

/-! ## Steps, the integration environment, and `executeAction` -/

/-- A workflow step as the free-form JS object the engine stores: common
`id` and `type`, plus the per-kind fields read by the interpreter. Absent
fields are `none` / empty. -/
structure Step where
  id : String
  type : String
  appName : Option String := none
  triggerId : Option String := none
  actionId : Option String := none
  config : List (String × JVal) := []
  conditions : List CondClause := []
deriving Repr

/-- `action.config?.k` — property read on the free-form config object. -/
def cfgGet (config : List (String × JVal)) (k : String) : Option JVal :=
  (config.find? (fun f => f.1 == k)).map (·.2)

/-- JS truthiness of a possibly-undefined value. -/
def optTruthy : Option JVal → Bool
  | some v => jsTruthy v
  | none => false

/-- JS `a || b` defaulting: the left value when truthy, else the fallback. -/
def jsOr (v : Option JVal) (fallback : JVal) : JVal :=
  match v with
  | some x => if jsTruthy x then x else fallback
  | none => fallback

/-- A possibly-undefined value placed into an object field (JS `undefined`
and `null` are identified as `null` here; the engine never distinguishes
them in result objects). -/
def optJVal : Option JVal → JVal
  | some v => v
  | none => .null

/-- The third-party world `executeAction` talks to: the integrations
service (Slack / Gmail / GitHub dispatch and the Slack OAuth metadata
read), the outbound `axios` HTTP call of `send_webhook`, and the JS
builtins `JSON.parse` (`none` models a parse error) / `JSON.stringify`.
An `Except.error` models a JS exception with its message. -/
structure JsEnv where
  slackAPI : String → JVal → Except String JVal
  gmailAPI : String → JVal → Except String JVal
  githubAPI : String → JVal → Except String JVal
  slackMetadata : Except String (Option JVal)
  axiosRequest : String → JVal → JVal → JVal → Except String JVal
  jsonParse : String → Option JVal
  jsonStringify : JVal → String

/-- A `try { body } catch (error) { return handler(error.message) }` block
whose catch returns normally: an exception in the body becomes an ordinary
result. -/
def tryCatch (body : Except String JVal) (handler : String → JVal) : Except String JVal :=
  match body with
  | .ok r => .ok r
  | .error e => .ok (handler e)

/-- `{status: 'failed', detail}` result object. -/
def failObj (detail : String) : JVal :=
  .obj [("status", .str "failed"), ("detail", .str detail)]

/-- `if (dataFromTrigger) { x = x.replace(templateRegex, cb) }` on a value
that is definitely assigned: substitutes when the trigger data is truthy;
calling `.replace` on a non-string raises a `TypeError`. -/
def templSub (d : JVal) (v : JVal) : Except String JVal :=
  if jsTruthy d then
    match v with
    | .str s => .ok (.str (substituteTemplates s d))
    | _ => .error "TypeError: replace is not a function"
  else .ok v

/-- `if (dataFromTrigger && x) { x = x.replace(templateRegex, cb) }` on a
possibly-undefined value: substitutes only when both are truthy. -/
def condReplaceOpt (d : JVal) (v : Option JVal) : Except String (Option JVal) :=
  if jsTruthy d && optTruthy v then
    match v with
    | some (.str s) => .ok (some (.str (substituteTemplates s d)))
    | _ => .error "TypeError: replace is not a function"
  else .ok v

/-- `v.length === 0` as used on `labelIds`. -/
def jsLenZero : JVal → Bool
  | .arr xs => xs.isEmpty
  | .str s => s.isEmpty
  | _ => false

/-- An element rendered by `Array.prototype.join` (null renders empty). -/
def jsJoinElem : JVal → String
  | .null => ""
  | v => jsToString v

/-- JS `v.join(', ')`: defined on arrays, a `TypeError` otherwise. -/
def jsJoin (v : JVal) : Except String String :=
  match v with
  | .arr xs => .ok (String.intercalate ", " (xs.map jsJoinElem))
  | _ => .error "TypeError: join is not a function"

/-- `JSON.stringify(v).replace(/^"|"$/g, '')` — strip one leading and one
trailing double quote. -/
def trimJsonQuotes (s : String) : String :=
  let l := match s.data with
           | '"' :: t => t
           | l => l
  let l := match l.reverse with
           | '"' :: t => t.reverse
           | _ => l
  ⟨l⟩

/-- The `send_webhook` object-payload pass:
`JSON.parse(JSON.stringify(payload).replace(templateRegex, cb))` where the
callback substitutes `JSON.stringify(value)` with outer quotes stripped
(or keeps the literal on undefined/null); `JSON.parse` may throw. -/
def jsonRoundTrip (env : JsEnv) (payload d : JVal) : Except String JVal :=
  let s' := substGen
    (fun key =>
      match getNestedValue d key with
      | none => none
      | some .null => none
      | some v => some (trimJsonQuotes (env.jsonStringify v))) (env.jsonStringify payload)
  match env.jsonParse s' with
  | some v => .ok v
  | none => .error "Unexpected token in JSON"

/-- Append `extra` object fields over `base` ones (JS object spread: the
spread fields win on key collision). -/
def mergeFields (base extra : List (String × JVal)) : List (String × JVal) :=
  base.filter (fun b => !(extra.any (fun e => e.1 == b.1))) ++ extra

/-- `{'Content-Type': 'application/json', ...action.config?.headers}`. -/
def mkWebhookHeaders : Option JVal → JVal
  | some (.obj fs) => .obj (mergeFields [("Content-Type", .str "application/json")] fs)
  | _ => .obj [("Content-Type", .str "application/json")]

/-- `executeAction(user, action, dataFromTrigger)` from the workflow
service. The action type is `action.actionId || action.appName`; each
branch of the `switch` mirrors the source: API-calling branches wrap their
body in try/catch and the catch returns `{status:'failed', detail}`, the
Slack `update_message` / `add_reaction` branches return a success object
built from the config without any call, unknown types return a failed
object. An `Except.error` escaping this function would model an uncaught
JS exception. -/
def executeAction (env : JsEnv) (action : Step) (dataFromTrigger : JVal) :
    Except String JVal :=
  let actionType := if strTruthyOpt action.actionId then action.actionId else action.appName
  let cfg := cfgGet action.config
  match actionType with
  | some "send_channel_message" =>
    tryCatch (do
      let message ← templSub dataFromTrigger
        (jsOr (cfg "message") (jsOr (cfg "text") (jsOr (cfg "description") (.str "Workflow triggered"))))
      let channel := jsOr (cfg "channel") (.str "#general")
      let result ← env.slackAPI "postMessage" (.obj [("channel", channel), ("text", message)])
      .ok (.obj [
        ("status", .str "success"),
        ("detail", .str ("Posted Slack message to " ++ jsToString channel ++ ": " ++ jsToString message)),
        ("channel", channel),
        ("message", message),
        ("messageTs", optJVal (jsGet result "ts"))]))
      (fun e => failObj ("Failed to post Slack message: " ++ e))
  | some "send_dm" =>
    tryCatch (do
      let dmMessage ← templSub dataFromTrigger
        (jsOr (cfg "text") (jsOr (cfg "message") (.str "Default DM")))
      let userId0 := if optTruthy (cfg "userId") then cfg "userId" else cfg "user_id"
      let userId ←
        if optTruthy userId0 then Except.ok userId0
        else do
          let metadata ← env.slackMetadata
          let uid := (metadata.bind fun m => jsGet m "authed_user").bind fun a => jsGet a "id"
          if optTruthy uid then Except.ok uid
          else Except.error "Could not find user ID. Please reconnect your Slack account or provide a userId."
      let result ← env.slackAPI "sendDM" (.obj [("userId", optJVal userId), ("text", dmMessage)])
      .ok (.obj [
        ("status", .str "success"),
        ("detail", .str ("Sent DM: " ++ jsToString dmMessage)),
        ("user", optJVal userId),
        ("message", dmMessage),
        ("messageTs", optJVal (jsGet result "ts"))]))
      (fun e => failObj ("Failed to send Slack DM: " ++ e))
  | some "update_message" =>
    .ok (.obj [
      ("status", .str "success"),
      ("detail", .str ("Updated message in channel: " ++ jsToString (jsOr (cfg "channel") (.str "unknown")))),
      ("channel", optJVal (cfg "channel")),
      ("messageTs", optJVal (cfg "messageTs")),
      ("newText", optJVal (cfg "text"))])
  | some "add_reaction" =>
    .ok (.obj [
      ("status", .str "success"),
      ("detail", .str ("Added reaction " ++ jsToString (jsOr (cfg "reactionName") (.str "unknown")) ++ " to message")),
      ("channel", optJVal (cfg "channel")),
      ("messageTs", optJVal (cfg "messageTs")),
      ("reaction", optJVal (cfg "reactionName"))])
  | some "send_email" =>
    tryCatch (do
      let toAddr := cfg "to"
      if !optTruthy toAddr then Except.error "Recipient email (to) is required"
      else do
        let subject ← templSub dataFromTrigger (jsOr (cfg "subject") (.str "Notification"))
        let body ← templSub dataFromTrigger (jsOr (cfg "body") (.str "This is an automated notification"))
        let result ← env.gmailAPI "sendEmail" (.obj [("to", optJVal toAddr), ("subject", subject), ("body", body)])
        .ok (.obj [
          ("status", .str "success"),
          ("detail", .str ("Email sent to " ++ jsToString (optJVal toAddr) ++ " with subject: " ++ jsToString subject)),
          ("to", optJVal toAddr),
          ("subject", subject),
          ("messageId", optJVal (jsGet result "id"))]))
      (fun e => failObj ("Failed to send email: " ++ e))
  | some "reply_to_email" =>
    tryCatch (do
      let messageId ← condReplaceOpt dataFromTrigger (cfg "messageId")
      let threadId ← condReplaceOpt dataFromTrigger (cfg "threadId")
      let replyBody ← templSub dataFromTrigger (jsOr (cfg "body") (.str "This is an automated reply"))
      let replySubject ← condReplaceOpt dataFromTrigger (cfg "subject")
      if !optTruthy messageId || !optTruthy threadId then
        .ok (failObj "messageId and threadId are required to reply to an email")
      else do
        let result ← env.gmailAPI "replyToEmail" (.obj [
          ("messageId", optJVal messageId), ("threadId", optJVal threadId),
          ("body", replyBody), ("subject", optJVal replySubject)])
        .ok (.obj [
          ("status", .str "success"),
          ("detail", .str ("Replied to email in thread " ++ jsToString (optJVal threadId))),
          ("messageId", optJVal (jsGet result "id")),
          ("threadId", optJVal (jsGet result "threadId"))]))
      (fun e => failObj ("Failed to reply to email: " ++ e))
  | some "add_label_to_email" =>
    tryCatch (do
      let labelIds := jsOr (cfg "labelIds") (.arr [])
      let messageId ← condReplaceOpt dataFromTrigger (cfg "messageId")
      if !optTruthy messageId || !jsTruthy labelIds || jsLenZero labelIds then
        .ok (failObj "messageId and labelIds are required")
      else do
        let result ← env.gmailAPI "addLabelToEmail" (.obj [("messageId", optJVal messageId), ("labelIds", labelIds)])
        .ok (.obj [
          ("status", .str "success"),
          ("detail", .str ("Added labels to email " ++ jsToString (optJVal messageId))),
          ("messageId", optJVal (jsGet result "id")),
          ("labelIds", optJVal (jsGet result "labelIds"))]))
      (fun e => failObj ("Failed to add label: " ++ e))
  | some "star_email" =>
    tryCatch (do
      let messageId ← condReplaceOpt dataFromTrigger (cfg "messageId")
      if !optTruthy messageId then .ok (failObj "messageId is required")
      else do
        let result ← env.gmailAPI "starEmail" (.obj [("messageId", optJVal messageId)])
        .ok (.obj [
          ("status", .str "success"),
          ("detail", .str ("Starred email " ++ jsToString (optJVal messageId))),
          ("messageId", optJVal (jsGet result "id")),
          ("starred", .bool true)]))
      (fun e => failObj ("Failed to star email: " ++ e))
  | some "create_issue" =>
    tryCatch (do
      let owner := cfg "owner"
      let repo := cfg "repo"
      let labels := jsOr (cfg "labels") (.arr [])
      let assignees := jsOr (cfg "assignees") (.arr [])
      if !optTruthy owner || !optTruthy repo then
        Except.error "GitHub action requires owner and repo in config"
      else do
        let title ← templSub dataFromTrigger (jsOr (cfg "title") (.str "Automated Issue"))
        let body ← templSub dataFromTrigger (jsOr (cfg "body") (.str ""))
        let result ← env.githubAPI "createIssue" (.obj [
          ("owner", optJVal owner), ("repo", optJVal repo), ("title", title),
          ("body", body), ("labels", labels), ("assignees", assignees)])
        .ok (.obj [
          ("status", .str "success"),
          ("detail", .str ("Created GitHub issue #" ++ jsToString (optJVal (jsGet result "number")) ++ ": " ++ jsToString title)),
          ("repository", .str (jsToString (optJVal owner) ++ "/" ++ jsToString (optJVal repo))),
          ("title", title),
          ("number", optJVal (jsGet result "number")),
          ("html_url", optJVal (jsGet result "html_url"))]))
      (fun e => failObj ("Failed to create GitHub issue: " ++ e))
  | some "add_comment_to_issue" =>
    tryCatch (do
      let owner := cfg "owner"
      let repo := cfg "repo"
      let issueNumber := cfg "issue_number"
      if !optTruthy owner || !optTruthy repo || !optTruthy issueNumber then
        Except.error "GitHub comment action requires owner, repo, and issue_number in config"
      else do
        let comment ← templSub dataFromTrigger (jsOr (cfg "comment") (.str "Automated comment"))
        let result ← env.githubAPI "addCommentToIssue" (.obj [
          ("owner", optJVal owner), ("repo", optJVal repo),
          ("issueNumber", optJVal issueNumber), ("comment", comment)])
        .ok (.obj [
          ("status", .str "success"),
          ("detail", .str ("Added comment to issue #" ++ jsToString (optJVal issueNumber))),
          ("repository", .str (jsToString (optJVal owner) ++ "/" ++ jsToString (optJVal repo))),
          ("issueNumber", optJVal issueNumber),
          ("comment", comment),
          ("html_url", optJVal (jsGet result "html_url"))]))
      (fun e => failObj ("Failed to add comment: " ++ e))
  | some "close_issue" =>
    tryCatch (do
      let owner := cfg "owner"
      let repo := cfg "repo"
      let issueNumber := cfg "issue_number"
      if !optTruthy owner || !optTruthy repo || !optTruthy issueNumber then
        Except.error "GitHub close issue action requires owner, repo, and issue_number in config"
      else do
        let result ← env.githubAPI "closeIssue" (.obj [
          ("owner", optJVal owner), ("repo", optJVal repo), ("issueNumber", optJVal issueNumber)])
        .ok (.obj [
          ("status", .str "success"),
          ("detail", .str ("Closed issue #" ++ jsToString (optJVal issueNumber))),
          ("repository", .str (jsToString (optJVal owner) ++ "/" ++ jsToString (optJVal repo))),
          ("issueNumber", optJVal issueNumber),
          ("html_url", optJVal (jsGet result "html_url"))]))
      (fun e => failObj ("Failed to close issue: " ++ e))
  | some "assign_issue" =>
    tryCatch (do
      let owner := cfg "owner"
      let repo := cfg "repo"
      let issueNumber := cfg "issue_number"
      let assignees := jsOr (cfg "assignees") (.arr [])
      if !optTruthy owner || !optTruthy repo || !optTruthy issueNumber then
        Except.error "GitHub assign issue action requires owner, repo, and issue_number in config"
      else do
        let result ← env.githubAPI "assignIssue" (.obj [
          ("owner", optJVal owner), ("repo", optJVal repo),
          ("issueNumber", optJVal issueNumber), ("assignees", assignees)])
        let joined ← jsJoin assignees
        .ok (.obj [
          ("status", .str "success"),
          ("detail", .str ("Assigned issue #" ++ jsToString (optJVal issueNumber) ++ " to " ++ joined)),
          ("repository", .str (jsToString (optJVal owner) ++ "/" ++ jsToString (optJVal repo))),
          ("issueNumber", optJVal issueNumber),
          ("assignees", optJVal (jsGet result "assignees")),
          ("html_url", optJVal (jsGet result "html_url"))]))
      (fun e => failObj ("Failed to assign issue: " ++ e))
  | some "send_webhook" =>
    tryCatch (do
      let url := cfg "url"
      let method := jsOr (cfg "method") (.str "POST")
      let payload0 := if optTruthy (cfg "payload") then (cfg "payload").getD .null else dataFromTrigger
      if !optTruthy url then .ok (failObj "Webhook URL is required")
      else do
        let payload1 ←
          match payload0 with
          | .str s =>
            if jsTruthy dataFromTrigger then
              let s' := substituteTemplates s dataFromTrigger
              Except.ok (match env.jsonParse s' with
                         | some v => v
                         | none => .str s')
            else Except.ok (.str s)
          | v => Except.ok v
        let payload2 ←
          match payload1 with
          | .str s =>
            (match url with
             | some (.str u) =>
               Except.ok (if strIncludes u "hooks.slack.com" then JVal.obj [("text", .str s)] else .str s)
             | _ => Except.error "TypeError: url.includes is not a function")
          | v => Except.ok v
        let payload3 ←
          match payload2 with
          | .obj fs =>
            if jsTruthy dataFromTrigger then jsonRoundTrip env (.obj fs) dataFromTrigger
            else Except.ok (.obj fs)
          | .arr xs =>
            if jsTruthy dataFromTrigger then jsonRoundTrip env (.arr xs) dataFromTrigger
            else Except.ok (.arr xs)
          | v => Except.ok v
        let methodLower ←
          match method with
          | .str s => Except.ok (strLower s)
          | _ => Except.error "TypeError: method.toLowerCase is not a function"
        let response ← env.axiosRequest methodLower (optJVal url) payload3 (mkWebhookHeaders (cfg "headers"))
        .ok (.obj [
          ("status", .str "success"),
          ("detail", .str ("Webhook sent to " ++ jsToString (optJVal url))),
          ("url", optJVal url),
          ("responseStatus", optJVal (jsGet response "status")),
          ("responseData", optJVal (jsGet response "data"))]))
      (fun e => .obj [
        ("status", .str "failed"),
        ("detail", .str ("Failed to send webhook: " ++ e)),
        ("url", optJVal (cfg "url"))])
  | some other =>
    .ok (failObj ("No action performed for type: " ++ other))
  | none =>
    .ok (failObj "No action performed for type: undefined")

/-! ## The step interpreter: `executeWorkflowSteps` -/

/-- One entry of the interpreter's execution log: a condition entry noting
the chosen next step id, or an action entry carrying the action result
(the presentational `message` strings of the source are derived from these
fields and omitted). -/
inductive ExecEntry where
  | cond (stepId : String) (next : Option String)
  | act (stepId : String) (result : JVal)
deriving Repr

/-- The step id carried by a log entry. -/
def ExecEntry.stepId : ExecEntry → String
  | .cond s _ => s
  | .act s _ => s

/-- Outcome of interpreting a step list: a normal return with the
execution log, a raised error (an action raised), or fuel exhaustion —
the JS `while` loop can run forever on a cyclic condition graph, which the
fuel makes observable. -/
inductive ExecResult where
  | ok (log : List ExecEntry)
  | err (msg : String)
  | fuelOut
deriving Repr

/-- `new Map(steps.map(step => [step.id, step])).get(id)`: a JS `Map`
keeps the most recently set value for a key, i.e. the last step with the
id. -/
def stepMapGet (steps : List Step) (id : String) : Option Step :=
  steps.foldl (fun acc s => if s.id == id then some s else acc) none

/-- The interpreter's `while (currentStepId)` loop. Per iteration: a falsy
current id (null or empty) ends the loop, a missing step ends the loop, a
`condition` step appends a condition entry and moves to the evaluated next
id, an `action` step executes the action, appends an action entry and ends
the loop (actions are terminal) — or re-raises if the action raised — and
any other step type ends the loop. -/
def execLoop (env : JsEnv) (steps : List Step) (triggerData : JVal) :
    Nat → Option String → List ExecEntry → ExecResult
  | 0, _, _ => .fuelOut
  | fuel+1, currentStepId, executionLog =>
    if !strTruthyOpt currentStepId then .ok executionLog
    else
      match stepMapGet steps (currentStepId.getD "") with
      | none => .ok executionLog
      | some currentStep =>
        if currentStep.type == "condition" then
          execLoop env steps triggerData fuel
            (evaluateCondition currentStep.conditions triggerData)
            (executionLog ++
              [.cond (currentStepId.getD "") (evaluateCondition currentStep.conditions triggerData)])
        else if currentStep.type == "action" then
          match executeAction env currentStep triggerData with
          | .ok actionResult => .ok (executionLog ++ [.act (currentStepId.getD "") actionResult])
          | .error e => .err e
        else .ok executionLog

/-- `executeWorkflowSteps(user, steps, triggerData, ...)` from the workflow
service: if the step list has no trigger step the empty log is returned;
otherwise the loop starts at `currentStepId = '2'`. -/
def executeWorkflowSteps (env : JsEnv) (steps : List Step) (triggerData : JVal)
    (fuel : Nat) : ExecResult :=
  if (steps.find? (fun s => s.type == "trigger")).isNone then .ok []
  else execLoop env steps triggerData fuel (some "2") []

/-! ## Scheduler, dedup store and executor -/

/-- A normalized Gmail message as returned by the integrations service to
`fetchNewEmails`. The source keeps the timestamp as an ISO string and
compares `new Date(t).getTime()` values; the embedding carries that epoch
number directly. The source field names `from` and `to` are Lean keywords
and appear here as `fromAddr` / `toAddr`. -/
structure Email where
  id : String
  threadId : String := ""
  subject : String := ""
  fromAddr : String := ""
  toAddr : String := ""
  snippet : String := ""
  body : String := ""
  timestamp : Int := 0
deriving Repr, DecidableEq

/-- A job's `triggerData`: the candidate object built by a detector
(`{externalId, triggerId, data}`); fields may be absent on payloads not
built by the scheduler. -/
structure TriggerData where
  externalId : Option String := none
  triggerId : Option String := none
  data : JVal := .null
deriving Repr

/-- The job's trigger data viewed as the JS object it is at runtime
(absent fields are simply missing keys). -/
def TriggerData.toJVal (td : TriggerData) : JVal :=
  .obj ((match td.externalId with
         | some e => [("externalId", JVal.str e)]
         | none => []) ++
        (match td.triggerId with
         | some t => [("triggerId", JVal.str t)]
         | none => []) ++
        [("data", td.data)])

/-- Insert an email into a newest-first list, before the first element
with an equal or older timestamp (keeping the insertion stable). -/
def insertDesc (e : Email) : List Email → List Email
  | [] => [e]
  | x :: xs => if e.timestamp ≥ x.timestamp then e :: x :: xs else x :: insertDesc e xs

/-- `emails.sort((a, b) => new Date(b.timestamp).getTime() - new
Date(a.timestamp).getTime())` — a stable sort by timestamp descending,
newest first (JS array sorts are stable; modelled by stable insertion
sort). -/
def sortNewestFirst : List Email → List Email
  | [] => []
  | e :: rest => insertDesc e (sortNewestFirst rest)

/-- The candidate object `fetchNewEmails` builds for one email. -/
def emailToCandidate (email : Email) : TriggerData :=
  { externalId := some email.id
    triggerId := some "new_email"
    data := .obj [("trigger", .obj [
      ("subject", .str email.subject),
      ("from", .str email.fromAddr),
      ("to", .str email.toAddr),
      ("snippet", .str email.snippet),
      ("body", .str email.body),
      ("timestamp", .num email.timestamp),
      ("messageId", .str email.id),
      ("threadId", .str email.threadId)])] }

/-- `fetchNewEmails(workflow, triggerStep)` from the scheduler, given the
list the Gmail integration returned for the configured query (an API error
is caught in the source and yields the empty list, i.e. an empty input
here): sort newest first, then map to candidate objects. -/
def fetchNewEmails (emails : List Email) : List TriggerData :=
  (sortNewestFirst emails).map emailToCandidate

/-- One `processed_trigger` row: the key columns of the entity, which
carries a UNIQUE index on (workflow, triggerType, externalId). -/
structure ProcRow where
  workflowId : Nat
  triggerType : String
  externalId : String
deriving Repr, DecidableEq

/-- The external ids already recorded for a workflow and trigger type (the
repository read in `filterUnprocessed`). -/
def processedIdsFor (rows : List ProcRow) (workflowId : Nat) (triggerType : String) :
    List String :=
  (rows.filter (fun r => r.workflowId == workflowId && r.triggerType == triggerType)).map
    (·.externalId)

/-- `filterUnprocessed(workflowId, triggerType, items)` from the scheduler:
keep the items whose `externalId` is not in the processed set (an item
without an external id is never in the set and is kept). -/
def filterUnprocessed (rows : List ProcRow) (workflowId : Nat) (triggerType : String)
    (items : List TriggerData) : List TriggerData :=
  items.filter (fun item =>
    !(match item.externalId with
      | some e => (processedIdsFor rows workflowId triggerType).any (fun p => p == e)
      | none => false))

/-- The workflow row columns the engine reads and writes. -/
structure WorkflowSt where
  id : Nat
  userId : Nat
  isActive : Bool
  lastRunAt : Option Int
  pollingInterval : Option Int
  steps : List Step
deriving Repr

/-- `calculateNextRunAt(workflow)` from the scheduler: epoch zero when the
workflow never ran, otherwise `lastRunAt` plus the polling interval
(`workflow.pollingInterval || 60` seconds; times are epoch milliseconds). -/
def calculateNextRunAt (workflow : WorkflowSt) : Int :=
  match workflow.lastRunAt with
  | none => 0
  | some t =>
    let pollingInterval : Int :=
      match workflow.pollingInterval with
      | some p => if p ≠ 0 then p else 60
      | none => 60
    t + pollingInterval * 1000

/-- `getPollingInterval(appName)` from the workflow service:
`intervals[appName] || 60` (note the `webhook` entry is `0`, which the
`||` turns into `60`). -/
def getPollingInterval (appName : Option String) : Int :=
  let v : Option Int :=
    match appName with
    | some "gmail" => some 60
    | some "slack" => some 30
    | some "github" => some 60
    | some "webhook" => some 0
    | _ => none
  match v with
  | some n => if n ≠ 0 then n else 60
  | none => 60

/-- `checkTrigger(workflow)` from the scheduler, for the Gmail `new_email`
detector (the six other detectors are structurally identical and are not
needed by the claims; the trigger type is `triggerStep.triggerId ||
triggerStep.appName`): fetch candidates, filter the already-processed
ones, and return the first remaining candidate, if any. -/
def checkTrigger (workflow : WorkflowSt) (emails : List Email) (rows : List ProcRow) :
    Option TriggerData :=
  match workflow.steps.find? (fun s => s.type == "trigger") with
  | none => none
  | some triggerStep =>
    match (if strTruthyOpt triggerStep.triggerId then triggerStep.triggerId
           else triggerStep.appName) with
    | some "new_email" =>
      (filterUnprocessed rows workflow.id "new_email" (fetchNewEmails emails)).head?
    | _ => none

/-- A queued `workflow-execution` job (`{workflowId, userId, triggerData}`
with BullMQ's `attemptsMade` counter). -/
structure QJob where
  workflowId : Nat
  userId : Nat
  triggerData : TriggerData
  attemptsMade : Nat := 0
deriving Repr

/-- `checkAndTriggerWorkflow(workflow)` from the scheduler, as a pure
transition: given the current wall clock, the detector input and the
processed rows, it yields the enqueued job (if any) and the updated
workflow row. `lastRunAt` is written only in the branch that enqueues. -/
def checkAndTriggerWorkflow (now : Int) (workflow : WorkflowSt) (emails : List Email)
    (rows : List ProcRow) : Option QJob × WorkflowSt :=
  if calculateNextRunAt workflow > now then (none, workflow)
  else
    match checkTrigger workflow emails rows with
    | some triggerData =>
      (some { workflowId := workflow.id, userId := workflow.userId, triggerData },
       { workflow with lastRunAt := some now })
    | none => (none, workflow)

/-- A `WorkflowRun` row as the executor leaves it (status `success` or
`failed`; `running` is transient within one `processWorkflow` call). -/
structure RunRec where
  status : String
  triggerData : TriggerData
  retryCount : Nat
deriving Repr

/-- `recordProcessed` — the `processedTriggerRepo.save` under the UNIQUE
index on (workflow, triggerType, externalId): a duplicate key is caught
and ignored, so the insert is a no-op when the key already exists. -/
def recordProcessed (rows : List ProcRow) (row : ProcRow) : List ProcRow :=
  if rows.any (fun r =>
      r.workflowId == row.workflowId && r.triggerType == row.triggerType &&
      r.externalId == row.externalId)
  then rows else rows ++ [row]

/-- The engine state for one workflow: the workflow row, its pending jobs
in the queue, the run records, and the processed-trigger rows. -/
structure EngineState where
  workflow : WorkflowSt
  queue : List QJob
  runs : List RunRec
  processed : List ProcRow
deriving Repr

/-- `removeWorkflowJobs(workflowId)` from the queue service: remove every
waiting/active/delayed job whose data carries this workflow id. -/
def removeWorkflowJobs (queue : List QJob) (workflowId : Nat) : List QJob :=
  queue.filter (fun job => !(job.workflowId == workflowId))

/-- `deactivateWorkflow(workflowId)` from the workflow service: set
`isActive = false` and save (it logs, but touches neither the queue nor
any other state). -/
def deactivateWorkflow (st : EngineState) : EngineState :=
  { st with workflow := { st.workflow with isActive := false } }

/-- One scheduler tick restricted to this workflow: `pollWorkflows` only
examines rows with `isActive = true`, then runs `checkAndTriggerWorkflow`,
which may append one job and advance `lastRunAt`. -/
def pollTick (now : Int) (emails : List Email) (st : EngineState) : EngineState :=
  if st.workflow.isActive then
    { st with
      workflow := (checkAndTriggerWorkflow now st.workflow emails st.processed).2
      queue := st.queue ++
        (match (checkAndTriggerWorkflow now st.workflow emails st.processed).1 with
         | some j => [j]
         | none => []) }
  else st

/-- `processWorkflow(job)` from `WorkflowProcessor`, applied to the head of
the queue (BullMQ delivers in FIFO order). The interpreter runs on
`triggerData.data || triggerData`. On success: a `success` run is
recorded, the workflow's `lastRunAt` is set to now, and — only when the
trigger data carries both `externalId` and `triggerId` — a processed
row is inserted (duplicate-key inserts are ignored). On a raised error: a
`failed` run is recorded with `retryCount = attemptsMade + 1` and the
error is re-thrown so BullMQ retries the job (3 attempts). Fuel
exhaustion of the interpreter leaves the state unchanged (the JS call
would simply not have returned yet). -/
def execStep (env : JsEnv) (now : Int) (fuel : Nat) (st : EngineState) : EngineState :=
  match st.queue with
  | [] => st
  | job :: restQueue =>
    match executeWorkflowSteps env st.workflow.steps
        (if jsTruthy job.triggerData.data then job.triggerData.data
         else job.triggerData.toJVal) fuel with
    | .ok _executionLog =>
      { workflow := { st.workflow with lastRunAt := some now }
        queue := restQueue
        runs := st.runs ++ [{ status := "success", triggerData := job.triggerData,
                              retryCount := job.attemptsMade }]
        processed :=
          if strTruthyOpt job.triggerData.externalId && strTruthyOpt job.triggerData.triggerId then
            recordProcessed st.processed
              { workflowId := job.workflowId
                triggerType := job.triggerData.triggerId.getD ""
                externalId := job.triggerData.externalId.getD "" }
          else st.processed }
    | .err _ =>
      { st with
        queue := restQueue ++ (if job.attemptsMade + 1 < 3 then
                                 [{ job with attemptsMade := job.attemptsMade + 1 }]
                               else [])
        runs := st.runs ++ [{ status := "failed", triggerData := job.triggerData,
                              retryCount := job.attemptsMade + 1 }] }
    | .fuelOut => st

/-- An observable event of the engine: a scheduler tick (with the wall
clock and the detector's Gmail read), or the worker picking up the next
job. -/
inductive EngineEvent where
  | sweep (now : Int) (emails : List Email)
  | exec (now : Int) (fuel : Nat)

/-- Apply one event to the engine state. -/
def applyEvent (env : JsEnv) (st : EngineState) : EngineEvent → EngineState
  | .sweep now emails => pollTick now emails st
  | .exec now fuel => execStep env now fuel st

/-- Run a whole event trace. -/
def runTrace (env : JsEnv) (st : EngineState) (events : List EngineEvent) : EngineState :=
  events.foldl (applyEvent env) st

/-! ## Shared fixtures for witnesses and counterexamples -/

/-- An environment in which every third-party call succeeds. -/
def demoEnvOk : JsEnv where
  slackAPI := fun _ _ => .ok (.obj [("ts", .str "111.222")])
  gmailAPI := fun _ _ => .ok (.obj [("id", .str "mid"), ("threadId", .str "tid")])
  githubAPI := fun _ _ => .ok (.obj [("number", .num 7), ("html_url", .str "u")])
  slackMetadata := .ok (some (.obj [("authed_user", .obj [("id", .str "U1")])]))
  axiosRequest := fun _ _ _ _ => .ok (.obj [("status", .num 200), ("data", .null)])
  jsonParse := fun _ => none
  jsonStringify := fun _ => ""

/-- An environment in which every third-party call fails at the transport
level (network error). -/
def demoEnvFail : JsEnv where
  slackAPI := fun _ _ => .error "ECONNRESET"
  gmailAPI := fun _ _ => .error "ECONNRESET"
  githubAPI := fun _ _ => .error "ECONNRESET"
  slackMetadata := .error "ECONNRESET"
  axiosRequest := fun _ _ _ _ => .error "ECONNRESET"
  jsonParse := fun _ => none
  jsonStringify := fun _ => ""

/-- A Gmail `new_email` trigger step (step id 1, per the frontend
convention). -/
def gmailTriggerStep : Step :=
  { id := "1", type := "trigger", appName := some "gmail", triggerId := some "new_email" }

/-- A Slack `send_channel_message` action step at id 2. -/
def slackMsgStep : Step :=
  { id := "2", type := "action", appName := some "slack",
    actionId := some "send_channel_message",
    config := [("channel", .str "C1"), ("message", .str "hello")] }

/-- A Slack `update_message` action step at id 2 (executes without any
third-party call). -/
def updMsgStep : Step :=
  { id := "2", type := "action", appName := some "slack",
    actionId := some "update_message",
    config := [("channel", .str "C1"), ("messageTs", .str "1.2"), ("text", .str "new")] }

/-! ## C6 — the interpreter starts at step id "2" -/

theorem execLoop_prefix (env : JsEnv) (steps : List Step) (td : JVal) :
    ∀ (fuel : Nat) (cur : Option String) (acc log : List ExecEntry),
      execLoop env steps td fuel cur acc = .ok log → acc <+: log := by
  intro fuel
  induction fuel with
  | zero => intro cur acc log h; simp [execLoop] at h
  | succ n ih =>
    intro cur acc log h
    unfold execLoop at h
    split at h
    · cases h; exact List.prefix_refl _
    · split at h
      · cases h; exact List.prefix_refl _
      · split at h
        · exact (List.prefix_append acc _).trans (ih _ _ _ h)
        · split at h
          · split at h
            · cases h; exact List.prefix_append acc _
            · cases h
          · cases h; exact List.prefix_refl _

/-- C6: for every step list carrying a trigger step, interpretation starts
at the step whose id is the string "2" — when no step has id "2" the
interpreter returns the empty log at once, and any non-empty execution log
opens with an entry for step "2". -/
theorem c6_interpreter_starts_at_step2 (env : JsEnv) (steps : List Step) (td : JVal)
    (fuel : Nat) (hfuel : 0 < fuel) :
    (stepMapGet steps "2" = none → executeWorkflowSteps env steps td fuel = .ok []) ∧
    (∀ log e, executeWorkflowSteps env steps td fuel = .ok log → log.head? = some e →
      e.stepId = "2") := by
  constructor
  · intro h2
    unfold executeWorkflowSteps
    split
    · rfl
    · obtain ⟨m, rfl⟩ := Nat.exists_eq_succ_of_ne_zero (Nat.pos_iff_ne_zero.mp hfuel)
      unfold execLoop
      rw [show strTruthyOpt (some "2") = true from rfl]
      simp only [Bool.not_true, Bool.false_eq_true, if_false]
      rw [show (some "2").getD "" = "2" from rfl, h2]
  · intro log e hrun hhead
    unfold executeWorkflowSteps at hrun
    split at hrun
    · cases hrun; cases hhead
    · obtain ⟨m, rfl⟩ := Nat.exists_eq_succ_of_ne_zero (Nat.pos_iff_ne_zero.mp hfuel)
      unfold execLoop at hrun
      rw [show strTruthyOpt (some "2") = true from rfl] at hrun
      simp only [Bool.not_true, Bool.false_eq_true, if_false] at hrun
      rw [show (some "2").getD "" = "2" from rfl] at hrun
      split at hrun
      · cases hrun; cases hhead
      · split at hrun
        · have hpre := execLoop_prefix env steps td m _ _ _ hrun
          rcases hpre with ⟨t, rfl⟩
          cases hhead; rfl
        · split at hrun
          · split at hrun
            · cases hrun; cases hhead; rfl
            · cases hrun
          · cases hrun; cases hhead

/-- Witness for C6 at a concrete input: a step list whose only steps are
the trigger and an action with id "9" has no step "2", and the interpreter
returns the empty log. -/
theorem c6_witness :
    executeWorkflowSteps demoEnvOk
      [gmailTriggerStep, { updMsgStep with id := "9" }] JVal.null 5 = .ok [] :=
  (c6_interpreter_starts_at_step2 demoEnvOk
    [gmailTriggerStep, { updMsgStep with id := "9" }] JVal.null 5 (by decide)).1 rfl

/-! ## C9 — `update_message` and `add_reaction` never call Slack -/

/-- C9: whenever the resolved action type is `update_message` or
`add_reaction`, `executeAction` returns the same success object whatever
the integration environment (credentials, Slack behaviour) and whatever
the trigger data — no third-party call is made and the result is built
from the config alone, with status `success`. -/
theorem c9_slack_stub_actions (env env' : JsEnv) (action : Step) (d d' : JVal)
    (h : (if strTruthyOpt action.actionId then action.actionId else action.appName) =
           some "update_message" ∨
         (if strTruthyOpt action.actionId then action.actionId else action.appName) =
           some "add_reaction") :
    executeAction env action d = executeAction env' action d' ∧
    ∃ r, executeAction env action d = .ok r ∧ jsGet r "status" = some (.str "success") := by
  unfold executeAction
  rcases h with h | h <;> rw [h] <;> exact ⟨rfl, _, rfl, rfl⟩

/-- Witness for C9: the demo `update_message` step runs identically in the
all-success and the all-failure environments and reports success. -/
theorem c9_witness :
    executeAction demoEnvOk updMsgStep JVal.null =
      executeAction demoEnvFail updMsgStep (.str "x") ∧
    ∃ r, executeAction demoEnvOk updMsgStep JVal.null = .ok r ∧
      jsGet r "status" = some (.str "success") :=
  c9_slack_stub_actions demoEnvOk demoEnvFail updMsgStep JVal.null (.str "x") (Or.inl rfl)

/-! ## C10 — the processed-trigger row needs both externalId and triggerId -/

/-- C10: when the worker successfully executes the job at the head of the
queue, the run is recorded with status `success` and the workflow's
`lastRunAt` is set to now; the processed-trigger rows are unchanged if the
job's trigger data lacks `externalId` or `triggerId`, and any change to
them requires both fields to be present. -/
theorem c10_processed_row_requires_ids (env : JsEnv) (now : Int) (fuel : Nat)
    (wf : WorkflowSt) (job : QJob) (rest : List QJob) (runs : List RunRec)
    (processed : List ProcRow) (log : List ExecEntry)
    (hok : executeWorkflowSteps env wf.steps
      (if jsTruthy job.triggerData.data then job.triggerData.data else job.triggerData.toJVal)
      fuel = .ok log) :
    (execStep env now fuel ⟨wf, job :: rest, runs, processed⟩).runs =
      runs ++ [{ status := "success", triggerData := job.triggerData,
                 retryCount := job.attemptsMade }] ∧
    (execStep env now fuel ⟨wf, job :: rest, runs, processed⟩).workflow.lastRunAt = some now ∧
    ((job.triggerData.externalId = none ∨ job.triggerData.triggerId = none) →
      (execStep env now fuel ⟨wf, job :: rest, runs, processed⟩).processed = processed) ∧
    ((execStep env now fuel ⟨wf, job :: rest, runs, processed⟩).processed ≠ processed →
      job.triggerData.externalId ≠ none ∧ job.triggerData.triggerId ≠ none) := by
  simp only [execStep]
  rw [hok]
  refine ⟨rfl, rfl, ?_, ?_⟩
  · intro h
    rcases h with h | h <;> simp [h, strTruthyOpt]
  · intro hne
    refine ⟨fun h => hne ?_, fun h => hne ?_⟩ <;> simp [h, strTruthyOpt]

/-- A job whose trigger data has no `externalId` (as a directly
constructed payload would). -/
def jobNoExt : QJob :=
  { workflowId := 1, userId := 1,
    triggerData := { externalId := none, triggerId := some "new_email",
                     data := .obj [("trigger", .obj [("subject", .str "s")])] } }

/-- A demo workflow: Gmail `new_email` trigger, `update_message` action. -/
def wfDemo : WorkflowSt :=
  { id := 1, userId := 1, isActive := true, lastRunAt := none,
    pollingInterval := some 60, steps := [gmailTriggerStep, updMsgStep] }

/-- Engine state with the id-less job pending. -/
def stC10 : EngineState :=
  { workflow := wfDemo, queue := [jobNoExt], runs := [], processed := [] }

/-- Witness for C10: executing the id-less job succeeds but writes no
processed-trigger row. -/
theorem c10_witness : (execStep demoEnvOk 500 3 stC10).processed = [] :=
  (c10_processed_row_requires_ids demoEnvOk 500 3 wfDemo jobNoExt [] [] [] _ rfl).2.2.1
    (Or.inl rfl)

/-! ## C2 — action failures never raise out of `executeAction` -/

/-- A try/catch whose catch returns yields a normal result for every body. -/
theorem tryCatch_total (body : Except String JVal) (handler : String → JVal) :
    ∃ r, tryCatch body handler = .ok r := by
  cases body <;> exact ⟨_, rfl⟩

/-- C2 (amended): `executeAction` never raises — every branch of the
switch either returns directly or wraps its body in a try/catch whose
catch returns `{status:'failed', detail}`; transport and provider failures
are therefore reported exactly like configuration failures, the run is not
marked failed, and the queue sees no error to retry. -/
theorem c2_actions_never_raise (env : JsEnv) (action : Step) (d : JVal) :
    ∃ r, executeAction env action d = Except.ok r := by
  simp only [executeAction]
  split
  all_goals first
    | exact tryCatch_total _ _
    | exact ⟨_, rfl⟩

/-- C2 (counterexample): a Slack transport failure (`ECONNRESET`, thrown
by the third-party call) does not raise out of the action — contrary to
the claim, `executeAction` returns normally with `{status:'failed'}`, the
interpreter records a completed action entry, and the workflow execution
returns a log instead of raising (so the run is marked success and the
queue does not retry). -/
theorem c2_counterexample :
    executeAction demoEnvFail slackMsgStep (.obj [("trigger", .obj [])]) =
      .ok (failObj "Failed to post Slack message: ECONNRESET") ∧
    executeWorkflowSteps demoEnvFail [gmailTriggerStep, slackMsgStep]
      (.obj [("trigger", .obj [])]) 5 =
      .ok [.act "2" (failObj "Failed to post Slack message: ECONNRESET")] :=
  ⟨rfl, rfl⟩

/-! ## C4 — `lastRunAt` when the dedup filter leaves nothing -/

/-- The oldest demo email. -/
def e1 : Email := { id := "m1", timestamp := 100 }

/-- A newer demo email. -/
def e2 : Email := { id := "m2", timestamp := 200 }

/-- A processed-trigger row for the demo email `m1`. -/
def procRowM1 : ProcRow := { workflowId := 1, triggerType := "new_email", externalId := "m1" }

/-- The demo workflow with a previous poll recorded at epoch 0. -/
def wfC4 : WorkflowSt :=
  { id := 1, userId := 1, isActive := true, lastRunAt := some 0,
    pollingInterval := some 60, steps := [gmailTriggerStep, updMsgStep] }

/-- C4 (counterexample): at time 1000000 the workflow is due and the
detector returns a candidate, but the dedup filter removes it (its
external id is already recorded); contrary to the claim, the scheduler
does NOT set `lastRunAt` to the current time — the workflow row is
returned unchanged, still carrying `lastRunAt = 0`. -/
theorem c4_counterexample :
    calculateNextRunAt wfC4 ≤ 1000000 ∧
    (fetchNewEmails [e1]).length = 1 ∧
    filterUnprocessed [procRowM1] wfC4.id "new_email" (fetchNewEmails [e1]) = [] ∧
    checkAndTriggerWorkflow 1000000 wfC4 [e1] [procRowM1] = (none, wfC4) ∧
    wfC4.lastRunAt ≠ some 1000000 :=
  ⟨by decide, rfl, rfl, rfl, by decide⟩

/-- C4 (amended): on a sweep of a due workflow in which the trigger check
surfaces nothing (in particular when every candidate was filtered as
already processed), the scheduler leaves the workflow row — including
`lastRunAt` — unchanged and enqueues nothing; `lastRunAt` is only written
in the branch that enqueues a job, so such a workflow is polled again on
the very next sweep. -/
theorem c4_lastRunAt_unchanged_when_filtered (now : Int) (wf : WorkflowSt)
    (emails : List Email) (rows : List ProcRow)
    (hdue : calculateNextRunAt wf ≤ now)
    (hnone : checkTrigger wf emails rows = none) :
    checkAndTriggerWorkflow now wf emails rows = (none, wf) := by
  unfold checkAndTriggerWorkflow
  rw [if_neg (not_lt.mpr hdue), hnone]

/-- Witness for C4 at the concrete counterexample input. -/
theorem c4_witness :
    checkAndTriggerWorkflow 1000000 wfC4 [e1] [procRowM1] = (none, wfC4) :=
  c4_lastRunAt_unchanged_when_filtered 1000000 wfC4 [e1] [procRowM1] (by decide) rfl

/-! ## C5 — deactivation and the pending queue -/

/-- A pending job carrying the candidate for `e1`. -/
def jobM1 : QJob := { workflowId := 1, userId := 1, triggerData := emailToCandidate e1 }

/-- Engine state with two pending jobs for workflow 1. -/
def stC5 : EngineState :=
  { workflow := wfC4, queue := [jobM1, jobM1], runs := [], processed := [] }

/-- C5 (counterexample): deactivating a workflow with two pending jobs
leaves both jobs in the queue — contrary to the claim, the queue does not
contain zero jobs for the workflow after deactivation
(`deactivateWorkflow` never invokes the queue's `removeWorkflowJobs`). -/
theorem c5_counterexample :
    (deactivateWorkflow stC5).workflow.isActive = false ∧
    ((deactivateWorkflow stC5).queue.filter (fun j => j.workflowId == 1)).length = 2 :=
  ⟨rfl, rfl⟩

/-- C5 (amended): deactivation only clears `isActive` — the pending jobs
of the workflow stay in the queue untouched (each will still be executed);
what deactivation does guarantee is that no subsequent scheduler sweep
enqueues anything for the workflow. The queue service's
`removeWorkflowJobs` would remove exactly the workflow's jobs, but no code
path invokes it. -/
theorem c5_deactivation_keeps_queue (st : EngineState) (now : Int) (emails : List Email) :
    (deactivateWorkflow st).workflow.isActive = false ∧
    (deactivateWorkflow st).queue = st.queue ∧
    pollTick now emails (deactivateWorkflow st) = deactivateWorkflow st ∧
    (∀ q wfId j, j ∈ removeWorkflowJobs q wfId → j.workflowId ≠ wfId) := by
  refine ⟨rfl, rfl, rfl, ?_⟩
  intro q wfId j hj
  have h := List.of_mem_filter hj
  simpa using h

/-- Witness for C5 at the concrete two-job state. -/
theorem c5_witness : (deactivateWorkflow stC5).queue = stC5.queue :=
  (c5_deactivation_keeps_queue stC5 0 []).2.1

/-! ## C7 — condition clause scanning and comparison semantics -/

/-- A clause "fires" during the scan when it carries a truthy `if` whose
comparison evaluates to true, or (failing a truthy `if`) a truthy `else`. -/
def clauseFires (td : JVal) (c : CondClause) : Bool :=
  if strTruthyOpt c.ifCond then evaluateConditionString (c.ifCond.getD "") td
  else strTruthyOpt c.elseId

/-- The target a firing clause selects: its `then` for an `if` clause, its
`else` otherwise. -/
def clauseTarget (c : CondClause) : Option String :=
  if strTruthyOpt c.ifCond then c.thenId else c.elseId

/-- The truthy-value comparison each operator performs: case-insensitive
comparison of the stringified value with the literal. -/
def opCompare (op : CondOp) (v : JVal) (lit : String) : Bool :=
  match op with
  | .contains => strIncludes (strLower (jsToString v)) (strLower lit)
  | .equals => strLower (jsToString v) == strLower lit
  | .notContains => !strIncludes (strLower (jsToString v)) (strLower lit)
  | .notEquals => strLower (jsToString v) != strLower lit

theorem evaluateCondition_eq_find (cs : List CondClause) (td : JVal) :
    evaluateCondition cs td = (cs.find? (clauseFires td)).bind clauseTarget := by
  induction cs with
  | nil => rfl
  | cons c rest ih =>
    unfold evaluateCondition List.find? clauseFires clauseTarget
    by_cases hif : strTruthyOpt c.ifCond
    · rw [if_pos hif]
      by_cases hev : evaluateConditionString (c.ifCond.getD "") td
      · rw [if_pos hev, if_pos hif, hev]
        simp [clauseTarget, if_pos hif]
      · rw [if_neg hev, if_pos hif]
        rw [show evaluateConditionString (c.ifCond.getD "") td = false from
          Bool.not_eq_true _ ▸ eq_false_of_ne_true (fun h => hev h)]
        exact ih
    · rw [if_neg hif, if_neg hif]
      by_cases helse : strTruthyOpt c.elseId
      · rw [if_pos helse, helse]
        simp [clauseTarget, if_neg hif]
      · rw [if_neg helse]
        rw [show strTruthyOpt c.elseId = false from
          Bool.not_eq_true _ ▸ eq_false_of_ne_true (fun h => helse h)]
        exact ih

/-- C7 (amended): (i) clause scanning — `evaluateCondition` returns the
target of the FIRST clause that fires, where an `else` clause fires as
soon as it is encountered (even if a later `if` clause would match);
(ii) for a condition string parsed as `(path, op, literal)`, when the
dotted-path value exists and is truthy the comparison is the
case-insensitive comparison of its stringification with the literal
(substring test for `contains`, equality for `equals`, negations for the
`not` variants); (iii) when the value is missing or falsy the positive
operators are false and the `not` variants true, regardless of the
stringification. -/
theorem c7_condition_semantics (cs : List CondClause) (td : JVal) (s : String)
    (path : String) (op : CondOp) (lit : String) (v : JVal)
    (hparse : findCondMatch s.data = some (path, op, lit)) :
    (evaluateCondition cs td = (cs.find? (clauseFires td)).bind clauseTarget) ∧
    (getNestedValue td path = some v → jsTruthy v = true →
      evaluateConditionString s td = opCompare op v lit) ∧
    ((getNestedValue td path = none ∨ (getNestedValue td path = some v ∧ jsTruthy v = false)) →
      ((op = .contains ∨ op = .equals) → evaluateConditionString s td = false) ∧
      ((op = .notContains ∨ op = .notEquals) → evaluateConditionString s td = true)) := by
  refine ⟨evaluateCondition_eq_find cs td, ?_, ?_⟩
  · intro hv htr
    cases op <;>
      (unfold evaluateConditionString opCompare; rw [hparse]; simp [hv, htr])
  · intro hmiss
    rcases hmiss with hv | ⟨hv, hfal⟩
    · constructor <;> rintro (rfl | rfl) <;>
        (unfold evaluateConditionString; rw [hparse]; simp [hv])
    · constructor <;> rintro (rfl | rfl) <;>
        (unfold evaluateConditionString; rw [hparse]; simp [hv, hfal])

/-- The clause list with an `else` clause placed before a matching `if`
clause. -/
def elseFirstClauses : List CondClause :=
  [{ elseId := some "5" },
   { ifCond := some "{{a}} equals 'x'", thenId := some "3" }]

/-- Trigger data binding `a` to the string `x`. -/
def dataAX : JVal := .obj [("a", .str "x")]

/-- C7 (counterexample): (i) with an `else` clause listed before a
matching `if` clause, the scan returns the else target "5" even though the
`if` clause's comparison holds — contradicting "the first `if` clause
whose comparison holds selects its `then` target, otherwise a clause
carrying `else` selects its target"; (ii) with `b` bound to the boolean
`false`, whose stringification equals the literal `'false'`, the `equals`
comparison is nevertheless false — the code short-circuits on falsy values
before any string comparison, contradicting "every comparison is a
case-insensitive string comparison after stringification". -/
theorem c7_counterexample :
    evaluateCondition elseFirstClauses dataAX = some "5" ∧
    evaluateConditionString "{{a}} equals 'x'" dataAX = true ∧
    evaluateConditionString "{{b}} equals 'false'" (.obj [("b", .bool false)]) = false ∧
    strLower (jsToString (.bool false)) = strLower "false" :=
  ⟨rfl, by decide, by decide, rfl⟩

/-- Witness for C7 at a concrete input: the scan characterization applied
to the else-before-if clause list. -/
theorem c7_witness :
    evaluateCondition elseFirstClauses dataAX =
      ((elseFirstClauses.find? (clauseFires dataAX)).bind clauseTarget) :=
  (c7_condition_semantics elseFirstClauses dataAX "{{a}} equals 'x'" "a" .equals "x"
    (.str "x") rfl).1

/-! ## C3 — which candidate a poll surfaces -/

theorem mem_insertDesc (e a : Email) (l : List Email) :
    a ∈ insertDesc e l ↔ a = e ∨ a ∈ l := by
  induction l with
  | nil => simp [insertDesc]
  | cons x xs ih =>
    unfold insertDesc
    by_cases h : e.timestamp ≥ x.timestamp
    · rw [if_pos h]
      simp [List.mem_cons]
    · rw [if_neg h]
      simp only [List.mem_cons, ih]
      tauto

theorem pairwise_insertDesc (e : Email) (l : List Email)
    (h : l.Pairwise (fun a b => b.timestamp ≤ a.timestamp)) :
    (insertDesc e l).Pairwise (fun a b => b.timestamp ≤ a.timestamp) := by
  induction l with
  | nil => simp [insertDesc]
  | cons x xs ih =>
    rcases List.pairwise_cons.mp h with ⟨hx, hxs⟩
    unfold insertDesc
    by_cases hc : e.timestamp ≥ x.timestamp
    · rw [if_pos hc]
      refine List.pairwise_cons.mpr ⟨?_, h⟩
      intro b hb
      rcases List.mem_cons.mp hb with rfl | hb
      · exact hc
      · exact le_trans (hx b hb) hc
    · rw [if_neg hc]
      refine List.pairwise_cons.mpr ⟨?_, ih hxs⟩
      intro b hb
      rcases (mem_insertDesc e b xs).mp hb with rfl | hb
      · exact (lt_of_not_ge hc).le
      · exact hx b hb

theorem mem_sortNewestFirst (a : Email) (l : List Email) :
    a ∈ sortNewestFirst l ↔ a ∈ l := by
  induction l with
  | nil => simp [sortNewestFirst]
  | cons x xs ih =>
    unfold sortNewestFirst
    rw [mem_insertDesc]
    simp [ih]

theorem pairwise_sortNewestFirst (l : List Email) :
    (sortNewestFirst l).Pairwise (fun a b => b.timestamp ≤ a.timestamp) := by
  induction l with
  | nil => simp [sortNewestFirst]
  | cons x xs ih => exact pairwise_insertDesc x (sortNewestFirst xs) ih

theorem filter_map_swap {α β : Type} (f : α → β) (p : β → Bool) (l : List α) :
    (l.map f).filter p = (l.filter (fun a => p (f a))).map f := by
  induction l with
  | nil => rfl
  | cons x xs ih => by_cases h : p (f x) <;> simp [List.filter_cons, h, ih]

/-- What `checkTrigger` returning a candidate tells us: the candidate is
built from an email of the detector output whose external id is not in
the processed set, and — because the list was sorted newest-first before
filtering and the FIRST element was taken — its timestamp is
greatest among all unprocessed emails of the detector output. -/
theorem checkTrigger_some_spec (wf : WorkflowSt) (emails : List Email)
    (rows : List ProcRow) (td : TriggerData)
    (h : checkTrigger wf emails rows = some td) :
    ∃ e, e ∈ emails ∧ td = emailToCandidate e ∧
      (processedIdsFor rows wf.id "new_email").any (fun p => p == e.id) = false ∧
      ∀ e' ∈ emails,
        (processedIdsFor rows wf.id "new_email").any (fun p => p == e'.id) = false →
        e'.timestamp ≤ e.timestamp := by
  unfold checkTrigger at h
  split at h
  · cases h
  · split at h
    · simp only [filterUnprocessed, fetchNewEmails] at h
      rw [filter_map_swap, List.head?_map] at h
      obtain ⟨e0, he0, rfl⟩ := Option.map_eq_some'.mp h
      have he0mem := List.mem_of_mem_head? he0
      have he0sorted := List.mem_of_mem_filter he0mem
      have he0emails : e0 ∈ emails := (mem_sortNewestFirst e0 emails).mp he0sorted
      have hq := List.of_mem_filter he0mem
      refine ⟨e0, he0emails, rfl, ?_, ?_⟩
      · simpa [emailToCandidate] using hq
      · intro e' he' hunproc
        have h1 : e' ∈ sortNewestFirst emails := (mem_sortNewestFirst e' emails).mpr he'
        have h2 : e' ∈ (sortNewestFirst emails).filter
            (fun a => !(match (emailToCandidate a).externalId with
                        | some e => (processedIdsFor rows wf.id "new_email").any (fun p => p == e)
                        | none => false)) := by
          refine List.mem_filter.mpr ⟨h1, ?_⟩
          show (!(processedIdsFor rows wf.id "new_email").any (fun p => p == e'.id)) = true
          rw [hunproc]
          rfl
        obtain ⟨t, ht⟩ : ∃ t, (sortNewestFirst emails).filter
            (fun a => !(match (emailToCandidate a).externalId with
                        | some e => (processedIdsFor rows wf.id "new_email").any (fun p => p == e)
                        | none => false)) = e0 :: t := by
          revert he0
          cases (sortNewestFirst emails).filter _ with
          | nil => intro he0; cases he0
          | cons a t =>
            intro he0
            cases he0
            exact ⟨t, rfl⟩
        have hpw := (pairwise_sortNewestFirst emails).filter
          (fun a => !(match (emailToCandidate a).externalId with
                      | some e => (processedIdsFor rows wf.id "new_email").any (fun p => p == e)
                      | none => false))
        rw [ht] at hpw h2
        rcases List.mem_cons.mp h2 with rfl | h2
        · exact le_refl _
        · exact (List.pairwise_cons.mp hpw).1 e' h2
    · cases h

/-- C3 (amended): the candidate a poll surfaces is the NEWEST unprocessed
event of the detector output — its timestamp is maximal among the
unprocessed candidates (the detector sorts newest-first and the scheduler
takes the first item after dedup filtering). -/
theorem c3_surfaces_newest_unprocessed (wf : WorkflowSt) (emails : List Email)
    (rows : List ProcRow) (td : TriggerData)
    (h : checkTrigger wf emails rows = some td) :
    ∃ e, e ∈ emails ∧ td = emailToCandidate e ∧
      (processedIdsFor rows wf.id "new_email").any (fun p => p == e.id) = false ∧
      ∀ e' ∈ emails,
        (processedIdsFor rows wf.id "new_email").any (fun p => p == e'.id) = false →
        e'.timestamp ≤ e.timestamp :=
  checkTrigger_some_spec wf emails rows td h

/-- C3 (counterexample): with two accumulated unprocessed emails — `m1`
at timestamp 100 and `m2` at timestamp 200 — the poll surfaces the
candidate for `m2`, the NEWEST one, although the oldest unprocessed event
is `m1` (which sits last in the filtered list). This contradicts the
claim that the first candidate after newest-first sorting and dedup
filtering is the oldest unprocessed event. -/
theorem c3_counterexample :
    checkTrigger wfDemo [e1, e2] [] = some (emailToCandidate e2) ∧
    filterUnprocessed [] wfDemo.id "new_email" (fetchNewEmails [e1, e2]) =
      [emailToCandidate e2, emailToCandidate e1] ∧
    e1.timestamp < e2.timestamp :=
  ⟨rfl, rfl, by decide⟩

/-- Witness for C3 at the two-email input. -/
theorem c3_witness :
    ∃ e, e ∈ [e1, e2] ∧ emailToCandidate e2 = emailToCandidate e ∧
      (processedIdsFor [] wfDemo.id "new_email").any (fun p => p == e.id) = false ∧
      ∀ e' ∈ [e1, e2],
        (processedIdsFor [] wfDemo.id "new_email").any (fun p => p == e'.id) = false →
        e'.timestamp ≤ e.timestamp :=
  c3_surfaces_newest_unprocessed wfDemo [e1, e2] [] (emailToCandidate e2) rfl

/-! ## C1 — at-most-once success per external event -/

/-- Two processed-trigger rows carry the same UNIQUE-index key. -/
def procKeyEq (r1 r2 : ProcRow) : Prop :=
  r1.workflowId = r2.workflowId ∧ r1.triggerType = r2.triggerType ∧
  r1.externalId = r2.externalId

theorem recordProcessed_pairwise (rows : List ProcRow) (row : ProcRow)
    (h : rows.Pairwise (fun a b => ¬ procKeyEq a b)) :
    (recordProcessed rows row).Pairwise (fun a b => ¬ procKeyEq a b) := by
  unfold recordProcessed
  split
  · exact h
  · rename_i hc
    rw [List.pairwise_append]
    refine ⟨h, by simp, ?_⟩
    intro a ha b hb
    have hb' : b = row := by simpa using hb
    subst hb'
    intro hkey
    apply hc
    refine List.any_eq_true.mpr ⟨a, ha, ?_⟩
    rcases hkey with ⟨h1, h2, h3⟩
    simp [h1, h2, h3]

theorem pollTick_processed (now : Int) (emails : List Email) (st : EngineState) :
    (pollTick now emails st).processed = st.processed := by
  unfold pollTick
  split <;> rfl

theorem execStep_pairwise (env : JsEnv) (now : Int) (fuel : Nat) (st : EngineState)
    (h : st.processed.Pairwise (fun a b => ¬ procKeyEq a b)) :
    (execStep env now fuel st).processed.Pairwise (fun a b => ¬ procKeyEq a b) := by
  unfold execStep
  split
  · exact h
  · split
    · show ((if _ then recordProcessed st.processed _ else st.processed)).Pairwise _
      split
      · exact recordProcessed_pairwise _ _ h
      · exact h
    · exact h
    · exact h

theorem runTrace_processed_unique (env : JsEnv) :
    ∀ (events : List EngineEvent) (st : EngineState),
      st.processed.Pairwise (fun a b => ¬ procKeyEq a b) →
      (runTrace env st events).processed.Pairwise (fun a b => ¬ procKeyEq a b) := by
  intro events
  induction events with
  | nil => intro st h; exact h
  | cons ev rest ih =>
    intro st h
    show (runTrace env (applyEvent env st ev) rest).processed.Pairwise _
    apply ih
    cases ev with
    | sweep now emails =>
      show (pollTick now emails st).processed.Pairwise _
      rw [pollTick_processed]
      exact h
    | exec now fuel => exact execStep_pairwise env now fuel st h

theorem pollTick_enqueues_unprocessed (now : Int) (emails : List Email)
    (st : EngineState) (job : QJob)
    (h : (pollTick now emails st).queue = st.queue ++ [job]) :
    ∃ e, e ∈ emails ∧ job.triggerData = emailToCandidate e ∧
      (processedIdsFor st.processed st.workflow.id "new_email").any
        (fun p => p == e.id) = false := by
  unfold pollTick at h
  split at h
  · have h' : (match (checkAndTriggerWorkflow now st.workflow emails st.processed).1 with
               | some j => [j]
               | none => ([] : List QJob)) = [job] := List.append_cancel_left h
    rcases hopt : (checkAndTriggerWorkflow now st.workflow emails st.processed).1 with _ | j0
    · rw [hopt] at h'; cases h'
    · rw [hopt] at h'
      have hjob : j0 = job := by simpa using h'
      subst hjob
      unfold checkAndTriggerWorkflow at hopt
      split at hopt
      · cases hopt
      · rcases hct : checkTrigger st.workflow emails st.processed with _ | td
        · rw [hct] at hopt; cases hopt
        · rw [hct] at hopt
          obtain ⟨e, he, hcand, hunp, _⟩ :=
            checkTrigger_some_spec st.workflow emails st.processed td hct
          refine ⟨e, he, ?_, hunp⟩
          cases hopt
          exact hcand
  · exfalso
    have := congrArg List.length h
    simp at this

/-- C1 (amended): the dedup mechanisms guarantee (i) at most one
processed-trigger row per (workflow, triggerType, externalId) key along
any interleaving of sweeps and executions — the UNIQUE index makes
recording idempotent — and (ii) a sweep only enqueues a candidate whose
external id is NOT yet recorded at sweep time. They do NOT bound the
number of `success` runs per external id: when the same event is enqueued
a second time before the first run records its row, both executions
complete as `success` (see the counterexample). -/
theorem c1_at_most_one_processed_row (env : JsEnv) (st : EngineState)
    (events : List EngineEvent)
    (h : st.processed.Pairwise (fun a b => ¬ procKeyEq a b)) :
    ((runTrace env st events).processed.Pairwise (fun a b => ¬ procKeyEq a b)) ∧
    (∀ now emails job, (pollTick now emails st).queue = st.queue ++ [job] →
      ∃ e, e ∈ emails ∧ job.triggerData = emailToCandidate e ∧
        (processedIdsFor st.processed st.workflow.id "new_email").any
          (fun p => p == e.id) = false) :=
  ⟨runTrace_processed_unique env events st h,
   fun now emails job hq => pollTick_enqueues_unprocessed now emails st job hq⟩

/-- The initial engine state for the race trace: the demo workflow, never
polled, nothing processed. -/
def stC1 : EngineState := { workflow := wfDemo, queue := [], runs := [], processed := [] }

/-- Two sweeps fire before the worker runs either job: the first sweep
(time 100000) enqueues `m1`, the polling interval (60 s) elapses, the
second sweep (time 200000) re-reads an empty processed set and enqueues
`m1` again, then both jobs execute successfully. -/
def c1events : List EngineEvent :=
  [.sweep 100000 [e1], .sweep 200000 [e1], .exec 300000 3, .exec 400000 3]

/-- C1 (counterexample): after the race trace there are TWO WorkflowRuns
with status `success` whose trigger payload carries external id `m1` for
trigger type `new_email` of workflow 1 — the claimed at-most-once bound
fails — while the processed-trigger table still holds exactly one row for
that key (the duplicate insert was ignored). -/
theorem c1_counterexample :
    ((runTrace demoEnvOk stC1 c1events).runs.filter
      (fun r => r.status == "success" && r.triggerData.externalId == some "m1" &&
        r.triggerData.triggerId == some "new_email")).length = 2 ∧
    ((runTrace demoEnvOk stC1 c1events).processed.filter
      (fun r => r.workflowId == 1 && r.triggerType == "new_email" &&
        r.externalId == "m1")).length = 1 :=
  ⟨rfl, rfl⟩

/-- Witness for C1: the uniqueness invariant evaluated along the race
trace itself. -/
theorem c1_witness :
    ((runTrace demoEnvOk stC1 c1events).processed.Pairwise
      (fun a b => ¬ procKeyEq a b)) :=
  (c1_at_most_one_processed_row demoEnvOk stC1 c1events List.Pairwise.nil).1

/-! ## C8 — template substitution leaves unresolvable references in place -/

theorem takeWhile_append_all {α : Type} (q : α → Bool) (l r : List α)
    (h : ∀ x ∈ l, q x = true) : (l ++ r).takeWhile q = l ++ r.takeWhile q := by
  induction l with
  | nil => simp
  | cons x xs ih =>
    have hx := h x (List.mem_cons_self _ _)
    simp only [List.cons_append, List.takeWhile_cons, hx, if_true]
    rw [ih (fun y hy => h y (List.mem_cons_of_mem _ hy))]

theorem dropWhile_append_all {α : Type} (q : α → Bool) (l r : List α)
    (h : ∀ x ∈ l, q x = true) : (l ++ r).dropWhile q = r.dropWhile q := by
  induction l with
  | nil => simp
  | cons x xs ih =>
    have hx := h x (List.mem_cons_self _ _)
    simp only [List.cons_append, List.dropWhile_cons, hx, if_true]
    exact ih (fun y hy => h y (List.mem_cons_of_mem _ hy))

theorem templateSpan_closed (p b : List Char) (hp0 : p ≠ [])
    (hp : ∀ c ∈ p, c ≠ '}') :
    templateSpan (p ++ '}' :: '}' :: b) = some (p, b) := by
  unfold templateSpan
  have hq : ∀ x ∈ p, (decide (x ≠ '}')) = true := fun x hx => decide_eq_true (hp x hx)
  have hdw : (p ++ '}' :: '}' :: b).dropWhile (fun c => c ≠ '}') = '}' :: '}' :: b := by
    rw [dropWhile_append_all _ _ _ hq]
    simp [List.dropWhile_cons]
  have htw : (p ++ '}' :: '}' :: b).takeWhile (fun c => c ≠ '}') = p := by
    rw [takeWhile_append_all _ _ _ hq]
    simp [List.takeWhile_cons]
  rw [hdw, htw]
  show (if p.isEmpty then none else some (p, b)) = some (p, b)
  rw [if_neg (by simpa [List.isEmpty_iff] using hp0)]

theorem substGenAux_nobrace (repl : String → Option String) :
    ∀ (fuel : Nat) (cs : List Char), (∀ c ∈ cs, c ≠ '{') →
      substGenAux repl fuel cs = cs := by
  intro fuel
  induction fuel with
  | zero => intro cs _; rfl
  | succ n ih =>
    intro cs h
    cases cs with
    | nil => rfl
    | cons c rest =>
      have hc : c ≠ '{' := h c (List.mem_cons_self _ _)
      show (if c = '{' then _ else c :: substGenAux repl n rest) = c :: rest
      rw [if_neg hc, ih rest (fun x hx => h x (List.mem_cons_of_mem _ hx))]

theorem substGenAux_append_nobrace (repl : String → Option String) :
    ∀ (a rest : List Char) (k : Nat), (∀ c ∈ a, c ≠ '{') →
      substGenAux repl (a.length + k) (a ++ rest) = a ++ substGenAux repl k rest := by
  intro a
  induction a with
  | nil => intro rest k _; simp
  | cons c t ih =>
    intro rest k h
    have hc : c ≠ '{' := h c (List.mem_cons_self _ _)
    have hlen : (c :: t).length + k = (t.length + k) + 1 := by
      simp [List.length_cons]
      omega
    rw [hlen]
    show (if c = '{' then _ else c :: substGenAux repl (t.length + k) (t ++ rest)) = _
    rw [if_neg hc, ih rest k (fun x hx => h x (List.mem_cons_of_mem _ hx))]
    rfl

theorem substGenAux_template (repl : String → Option String) (p b : List Char) (k : Nat)
    (hp0 : p ≠ []) (hp : ∀ c ∈ p, c ≠ '}') :
    substGenAux repl (k + 1) ('{' :: '{' :: (p ++ '}' :: '}' :: b)) =
      (match repl ⟨p⟩ with
       | some r => r.data
       | none => '{' :: '{' :: (p ++ ['}', '}'])) ++ substGenAux repl k b := by
  have hspan := templateSpan_closed p b hp0 hp
  simp [substGenAux, hspan]

/-- C8: template substitution on a string with one `{{path}}` occurrence
(surrounded by brace-free text): when the dotted-path lookup in the
trigger data yields `undefined` (missing) or `null`, the literal
`{{path}}` is left in place — no error and no empty string; otherwise the
occurrence is replaced by the (stringified) looked-up value. -/
theorem c8_template_substitution (data : JVal) (a p b : String)
    (ha : ∀ c ∈ a.data, c ≠ '{') (hb : ∀ c ∈ b.data, c ≠ '{')
    (hp0 : p ≠ "") (hp : ∀ c ∈ p.data, c ≠ '}') :
    substituteTemplates (a ++ "\x7b\x7b" ++ p ++ "\x7d\x7d" ++ b) data =
      a ++ (match getNestedValue data p with
            | none => "\x7b\x7b" ++ p ++ "\x7d\x7d"
            | some JVal.null => "\x7b\x7b" ++ p ++ "\x7d\x7d"
            | some v => jsToString v) ++ b := by
  apply String.ext
  unfold substituteTemplates substGen
  have hdata : (a ++ "\x7b\x7b" ++ p ++ "\x7d\x7d" ++ b).data
      = a.data ++ ('{' :: '{' :: (p.data ++ '}' :: '}' :: b.data)) := by
    simp [String.data_append, List.append_assoc]
  rw [hdata]
  have hlen1 : (a.data ++ ('{' :: '{' :: (p.data ++ '}' :: '}' :: b.data))).length
      = a.data.length + ((p.data.length + b.data.length + 3) + 1) := by
    simp [List.length_append, List.length_cons]
    try omega
  rw [hlen1]
  rw [substGenAux_append_nobrace _ a.data _ _ ha]
  have hp0' : p.data ≠ [] := fun h => hp0 (String.ext (by rw [h]))
  rw [substGenAux_template _ p.data b.data _ hp0' hp]
  rw [substGenAux_nobrace _ _ b.data hb]
  rw [show (String.mk p.data) = p from rfl]
  rcases hv : getNestedValue data p with _ | v
  · simp [hv, String.data_append]
  · cases v <;> simp [hv, String.data_append]

/-- Witness for C8 at concrete inputs: a missing path leaves the literal
in place, a present path is substituted. -/
theorem c8_witness :
    substituteTemplates ("x: " ++ "\x7b\x7b" ++ "trigger.zzz" ++ "\x7d\x7d" ++ "!")
      (.obj [("trigger", .obj [("s", .str "hi")])]) =
      "x: " ++ ("\x7b\x7b" ++ "trigger.zzz" ++ "\x7d\x7d") ++ "!" :=
  c8_template_substitution (.obj [("trigger", .obj [("s", .str "hi")])])
    "x: " "trigger.zzz" "!" (by decide) (by decide) (by decide) (by decide)
